import Mathlib

/-!
Verification of the air-sea flux pipeline in `airsea_data.ipynb`.

The notebook computes, from bulk meteorological inputs: a net shortwave
irradiance (cell 3), a density flux (cell 5), a buoyancy flux and the
Obukhov length (cell 6), and prints a flux summary (cell 7).  The numeric
code is embedded over the reals; the arithmetic in cell 6 that can hit
IEEE special values (square root of a negative stress, division by a zero
buoyancy flux) is embedded with an explicit value type `NFloat` carrying
finite reals, the two signed zeros, the two signed infinities and NaN,
following numpy's semantics for `sqrt`, negation, multiplication and
division: `fin 0` is the float +0.0 and `negZero` is -0.0, and the sign
of a zero decides the sign of an infinite quotient.
-/

noncomputable section

namespace AirSea

/-- Cell 3: `albedo = 0.06`, a fixed constant of the shortwave stage. -/
def albedo : ℝ := 0.06

/-- Cell 3 shortwave formula with the albedo as a parameter (the source
binds the name `albedo` to a constant before the expression
`Qshortwave = (1.0-albedo)*QswIdeal*(1-Cfrac**3)` with
`Cfrac = cloudCover/8.0`). -/
def estimate_net_shortwave (cloudCoverOktas clearSkyIrradiance a : ℝ) : ℝ :=
  let cloudFraction := cloudCoverOktas / 8.0
  (1.0 - a) * clearSkyIrradiance * (1 - cloudFraction ^ 3)

/-- Cell 3: the pipeline's shortwave stage; its interface takes only the
cloud cover and the clear-sky irradiance, the albedo is the fixed
constant. -/
def Qshortwave (cloudCover QswIdeal : ℝ) : ℝ :=
  estimate_net_shortwave cloudCover QswIdeal albedo

/-- Cell 5 comment: `conversion from mm/hour to kg/s/m²` — division
by 3600, applied to the evaporation and rain rates. -/
def mmPerHourToKgPerSecM2 (rate : ℝ) : ℝ :=
  rate / 3600

/-- The inverse of [mmPerHourToKgPerSecM2], multiplication by 3600; the
spec's round-trip property names it as the inverse conversion. -/
def kgPerSecM2ToMmPerHour (rate : ℝ) : ℝ :=
  rate * 3600

/-- The two seawater coefficients and the specific heat obtained from the
external GSW library in cell 4. -/
structure ThermoCoeffs where
  alpha : ℝ
  beta : ℝ
  Cp : ℝ

/-- Cell 5: the density-flux calculation.  Returns the pair
`(Qnet, Qp)`: the net heat flux and the density flux. -/
def compute_density_flux (evaporation rain QnetMinusSW netShortwave surfaceSalinity : ℝ)
    (coeffs : ThermoCoeffs) (rho0 : ℝ) : ℝ × ℝ :=
  let evap := mmPerHourToKgPerSecM2 evaporation
  let precip := mmPerHourToKgPerSecM2 rain
  let Qnet := -QnetMinusSW + netShortwave
  let Ft := -Qnet / (rho0 * coeffs.Cp)
  let Fs := (evap - precip) / (1 - surfaceSalinity / 1000)
  let Qp := rho0 * (coeffs.alpha * Ft + coeffs.beta * Fs)
  (Qnet, Qp)

/-- A floating-point value as numpy handles it in cell 6: a finite real
(rounding ignored, `fin 0` standing for the float +0.0), the negative
zero -0.0, one of the two signed infinities, or NaN. -/
inductive NFloat where
  | fin : ℝ → NFloat
  | negZero : NFloat
  | posInf : NFloat
  | negInf : NFloat
  | nan : NFloat
deriving DecidableEq

namespace NFloat

/-- Negation on [NFloat]: IEEE negation flips the sign bit, so negating
+0.0 gives -0.0 and conversely. -/
def neg : NFloat → NFloat
  | fin x => if x = 0 then negZero else fin (-x)
  | negZero => fin 0
  | posInf => negInf
  | negInf => posInf
  | nan => nan

/-- Multiplication on [NFloat]: finite times finite stays finite
(overflow ignored) and a zero product carries the XOR of the operand
signs, zero times an infinity is NaN, NaN propagates. -/
def mul : NFloat → NFloat → NFloat
  | nan, _ => nan
  | fin x, fin y =>
      if x * y ≠ 0 then fin (x * y)
      else if (x < 0 ∧ 0 ≤ y) ∨ (0 ≤ x ∧ y < 0) then negZero
      else fin 0
  | fin x, negZero => if x < 0 then fin 0 else negZero
  | fin x, posInf => if 0 < x then posInf else if x < 0 then negInf else nan
  | fin x, negInf => if 0 < x then negInf else if x < 0 then posInf else nan
  | negZero, fin y => if y < 0 then fin 0 else negZero
  | negZero, negZero => fin 0
  | negZero, posInf => nan
  | negZero, negInf => nan
  | posInf, fin y => if 0 < y then posInf else if y < 0 then negInf else nan
  | posInf, negZero => nan
  | posInf, posInf => posInf
  | posInf, negInf => negInf
  | negInf, fin y => if 0 < y then negInf else if y < 0 then posInf else nan
  | negInf, negZero => nan
  | negInf, posInf => negInf
  | negInf, negInf => posInf
  | _, nan => nan

/-- Division on [NFloat]: a nonzero finite numerator over a zero is the
infinity whose sign is the XOR of the operand signs (so a negative
numerator over -0.0 is +inf), 0/0 is NaN in every sign combination, a
zero quotient carries the XOR of the signs, NaN propagates.  numpy warns
on the singular cases instead of raising. -/
def div : NFloat → NFloat → NFloat
  | nan, _ => nan
  | fin x, fin y =>
      if y ≠ 0 then
        if x ≠ 0 then fin (x / y)
        else if y < 0 then negZero
        else fin 0
      else if 0 < x then posInf
      else if x < 0 then negInf
      else nan
  | fin x, negZero =>
      if 0 < x then negInf
      else if x < 0 then posInf
      else nan
  | fin x, posInf => if x < 0 then negZero else fin 0
  | fin x, negInf => if x < 0 then fin 0 else negZero
  | negZero, fin y =>
      if y = 0 then nan
      else if y < 0 then fin 0
      else negZero
  | negZero, negZero => nan
  | negZero, posInf => negZero
  | negZero, negInf => fin 0
  | posInf, fin y => if 0 ≤ y then posInf else negInf
  | posInf, negZero => negInf
  | posInf, posInf => nan
  | posInf, negInf => nan
  | negInf, fin y => if 0 ≤ y then negInf else posInf
  | negInf, negZero => posInf
  | negInf, posInf => nan
  | negInf, negInf => nan
  | _, nan => nan

/-- Square root on [NFloat], as `np.sqrt`: NaN on a negative argument
(numpy emits a RuntimeWarning, not an exception); IEEE prescribes
`sqrt(-0.0) = -0.0`. -/
def sqrt : NFloat → NFloat
  | fin x => if 0 ≤ x then fin (Real.sqrt x) else nan
  | negZero => negZero
  | posInf => posInf
  | negInf => nan
  | nan => nan

/-- Cube on [NFloat]: `ustar**3` in cell 6, as iterated multiplication. -/
def pow3 (x : NFloat) : NFloat :=
  x.mul (x.mul x)

/-- The numeric value of a float when it has one: both zeros count as 0
(IEEE equality does not distinguish them); infinities and NaN have
none. -/
def toReal? : NFloat → Option ℝ
  | fin x => some x
  | negZero => some 0
  | _ => none

end NFloat

/-- Cell 6: `kappa = 0.4 # von Karman constant`. -/
def kappa : ℝ := 0.4

/-- Cell 6: buoyancy flux, friction velocity and Obukhov length, every
line through [NFloat]: `Bf = -g*Qp/rho0` (parsed `((-g)*Qp)/rho0`, so a
zero `Qp` makes `Bf` a signed zero whose sign decides the sign of an
infinite `L`), `ustar = np.sqrt(tau/rho0)` (NaN on a negative stress)
and `L = -ustar**3/(kappa*Bf)`.  The upstream density flux enters as a
float `Qp`; the stress, reference density and gravity are plain finite
inputs.  Returns `(Bf, ustar, L)`. -/
def compute_obukhov (Qp : NFloat) (tau rho0 g : ℝ) : NFloat × NFloat × NFloat :=
  let Bf := NFloat.div (NFloat.mul (NFloat.neg (NFloat.fin g)) Qp) (NFloat.fin rho0)
  let ustar := NFloat.sqrt (NFloat.div (NFloat.fin tau) (NFloat.fin rho0))
  let L := NFloat.div (NFloat.neg (NFloat.pow3 ustar)) (NFloat.mul (NFloat.fin kappa) Bf)
  (Bf, ustar, L)

/-- Cell 2: the bulk inputs of one observation, with the reference
density and gravity. -/
structure ObservationRecord where
  windspeed : ℝ
  airTemperature : ℝ
  relativeHumidity : ℝ
  bulkSST : ℝ
  latitude : ℝ
  MSLP : ℝ
  Hs : ℝ
  rain : ℝ
  mastHeight : ℝ
  cloudCover : ℝ
  QswIdeal : ℝ
  surfaceSalinity : ℝ
  dBar : ℝ
  g : ℝ
  rho0 : ℝ

/-- The six numbers unpacked from the COARE 3.5 call in cell 3:
`tau, Qsensible, Qlatent, LWnet, QnetMinusSW, evaporation = A[0].T`. -/
structure BulkFluxResult where
  tau : ℝ
  Qsensible : ℝ
  Qlatent : ℝ
  LWnet : ℝ
  QnetMinusSW : ℝ
  evaporation : ℝ

/-- The external COARE 3.5 estimator, a black box: arguments in the
order of the call in cell 3 (`windspeed, airTemperature,
relativeHumidity, bulkSST, P, Rs, sigH, zu, zt, zq, lat`). -/
def CoareFn : Type :=
  ℝ → ℝ → ℝ → ℝ → ℝ → ℝ → ℝ → ℝ → ℝ → ℝ → ℝ → BulkFluxResult

/-- The external GSW seawater-property functions of cell 4, each a black
box of `(surfaceSalinity, bulkSST, dBar)`. -/
structure GswFns where
  alpha : ℝ → ℝ → ℝ → ℝ
  beta : ℝ → ℝ → ℝ → ℝ
  cp_t_exact : ℝ → ℝ → ℝ → ℝ

/-- The six quantities printed in cell 7, in print order: the summary of
fluxes defined as positive into the ocean. -/
structure FluxSummary where
  sensibleHeatFlux : ℝ
  latentHeatFlux : ℝ
  netLongwave : ℝ
  netHeatFlux : ℝ
  buoyancyFlux : NFloat
  obukhovLength : NFloat

/-- Cells 3-7 in sequence: the whole notebook pipeline for one
observation record, with the two external libraries passed as black-box
functions.  Cell 3 applies the same mast height to the wind, temperature
and humidity sensors; cell 7 negates the three turbulent/longwave fluxes
to report them positive into the ocean.  The real-valued density flux
enters the float stage as `NFloat.fin`, whose zero is +0.0: in
round-to-nearest an exact cancellation yields the positive zero. -/
def run_pipeline (obs : ObservationRecord) (coare : CoareFn) (gsw : GswFns) :
    FluxSummary :=
  let Qsw := Qshortwave obs.cloudCover obs.QswIdeal
  let A := coare obs.windspeed obs.airTemperature obs.relativeHumidity obs.bulkSST
    obs.MSLP Qsw obs.Hs obs.mastHeight obs.mastHeight obs.mastHeight obs.latitude
  let coeffs : ThermoCoeffs :=
    { alpha := gsw.alpha obs.surfaceSalinity obs.bulkSST obs.dBar
      beta := gsw.beta obs.surfaceSalinity obs.bulkSST obs.dBar
      Cp := gsw.cp_t_exact obs.surfaceSalinity obs.bulkSST obs.dBar }
  let dens := compute_density_flux A.evaporation obs.rain A.QnetMinusSW Qsw
    obs.surfaceSalinity coeffs obs.rho0
  let buoy := compute_obukhov (NFloat.fin dens.2) A.tau obs.rho0 obs.g
  { sensibleHeatFlux := -A.Qsensible
    latentHeatFlux := -A.Qlatent
    netLongwave := -A.LWnet
    netHeatFlux := dens.1
    buoyancyFlux := buoy.1
    obukhovLength := buoy.2.2 }

namespace NFloat

lemma sqrt_fin_of_nonneg {x : ℝ} (h : 0 ≤ x) :
    NFloat.sqrt (NFloat.fin x) = NFloat.fin (Real.sqrt x) := by
  simp [NFloat.sqrt, h]

lemma sqrt_fin_of_neg {x : ℝ} (h : x < 0) :
    NFloat.sqrt (NFloat.fin x) = NFloat.nan := by
  simp [NFloat.sqrt, not_le.mpr h]

lemma neg_fin_of_ne {x : ℝ} (h : x ≠ 0) :
    NFloat.neg (NFloat.fin x) = NFloat.fin (-x) := by
  simp [NFloat.neg, h]

lemma neg_fin_zero : NFloat.neg (NFloat.fin 0) = NFloat.negZero := by
  simp [NFloat.neg]

lemma neg_nan : NFloat.neg NFloat.nan = NFloat.nan := rfl

lemma mul_fin_fin_of_ne {x y : ℝ} (h : x * y ≠ 0) :
    NFloat.mul (NFloat.fin x) (NFloat.fin y) = NFloat.fin (x * y) := by
  simp [NFloat.mul, h]

lemma mul_fin_fin_nonneg {x y : ℝ} (hx : 0 ≤ x) (hy : 0 ≤ y) :
    NFloat.mul (NFloat.fin x) (NFloat.fin y) = NFloat.fin (x * y) := by
  by_cases h : x * y ≠ 0
  · simp [NFloat.mul, h]
  · push_neg at h
    simp [NFloat.mul, h, not_lt.mpr hx, not_lt.mpr hy]

lemma mul_fin_zero_of_neg {x : ℝ} (hx : x < 0) :
    NFloat.mul (NFloat.fin x) (NFloat.fin 0) = NFloat.negZero := by
  simp [NFloat.mul, hx, hx.le]

lemma mul_fin_negZero_of_pos {x : ℝ} (hx : 0 < x) :
    NFloat.mul (NFloat.fin x) NFloat.negZero = NFloat.negZero := by
  simp [NFloat.mul, not_lt.mpr hx.le]

lemma mul_fin_negZero_of_neg {x : ℝ} (hx : x < 0) :
    NFloat.mul (NFloat.fin x) NFloat.negZero = NFloat.fin 0 := by
  simp [NFloat.mul, hx]

lemma pow3_fin_nonneg {x : ℝ} (hx : 0 ≤ x) :
    NFloat.pow3 (NFloat.fin x) = NFloat.fin (x ^ 3) := by
  unfold NFloat.pow3
  rw [mul_fin_fin_nonneg hx hx, mul_fin_fin_nonneg hx (mul_nonneg hx hx)]
  congr 1
  ring

lemma pow3_nan : NFloat.pow3 NFloat.nan = NFloat.nan := rfl

lemma div_nan_left (y : NFloat) : NFloat.div NFloat.nan y = NFloat.nan := by
  cases y <;> rfl

lemma div_fin_fin_of_pos {x y : ℝ} (hy : 0 < y) :
    NFloat.div (NFloat.fin x) (NFloat.fin y) = NFloat.fin (x / y) := by
  by_cases hx : x = 0
  · subst hx
    simp [NFloat.div, hy.ne', not_lt.mpr hy.le]
  · simp [NFloat.div, hy.ne', hx]

lemma div_fin_fin_of_ne {x y : ℝ} (hx : x ≠ 0) (hy : y ≠ 0) :
    NFloat.div (NFloat.fin x) (NFloat.fin y) = NFloat.fin (x / y) := by
  simp [NFloat.div, hx, hy]

lemma div_fin_zero_of_neg {x : ℝ} (h : x < 0) :
    NFloat.div (NFloat.fin x) (NFloat.fin 0) = NFloat.negInf := by
  simp [NFloat.div, h, not_lt.mpr h.le]

lemma div_fin_negZero_of_neg {x : ℝ} (h : x < 0) :
    NFloat.div (NFloat.fin x) NFloat.negZero = NFloat.posInf := by
  simp [NFloat.div, h, not_lt.mpr h.le]

lemma div_negZero_fin_of_pos {y : ℝ} (hy : 0 < y) :
    NFloat.div NFloat.negZero (NFloat.fin y) = NFloat.negZero := by
  simp [NFloat.div, hy.ne', not_lt.mpr hy.le]

lemma div_negZero_fin_of_neg {y : ℝ} (hy : y < 0) :
    NFloat.div NFloat.negZero (NFloat.fin y) = NFloat.fin 0 := by
  simp [NFloat.div, hy.ne, hy]

lemma div_negZero_negZero : NFloat.div NFloat.negZero NFloat.negZero = NFloat.nan := rfl

end NFloat

/-- Claim C4: for cloud cover in [0, 8], albedo in [0, 1] and a
nonnegative clear-sky irradiance, the shortwave stage returns
`(1 - albedo) * clearSkyIrradiance * (1 - (cloudCoverOktas/8)^3)`. -/
theorem estimate_net_shortwave_formula (c q a : ℝ) (hc0 : 0 ≤ c) (hc8 : c ≤ 8)
    (ha0 : 0 ≤ a) (ha1 : a ≤ 1) (hq : 0 ≤ q) :
    estimate_net_shortwave c q a = (1 - a) * q * (1 - (c / 8) ^ 3) := by
  unfold estimate_net_shortwave
  norm_num

/-- Witness for C4 at cloud cover 4 oktas, irradiance 970, albedo 0.06. -/
theorem estimate_net_shortwave_formula_witness :
    estimate_net_shortwave 4 970 (6 / 100) =
      (1 - 6 / 100) * 970 * (1 - ((4 : ℝ) / 8) ^ 3) :=
  estimate_net_shortwave_formula 4 970 (6 / 100) (by norm_num) (by norm_num)
    (by norm_num) (by norm_num) (by norm_num)

/-- Counterexample for C7: at the out-of-range cloud cover 16 oktas the
source raises nothing and returns the ordinary numeric value -6382.6
(a negative irradiance), so no `InvalidInput` failure occurs. -/
theorem shortwave_no_validation_cx :
    estimate_net_shortwave 16 970 albedo = -31913 / 5 ∧
    estimate_net_shortwave 16 970 albedo < 0 := by
  constructor <;> · unfold estimate_net_shortwave albedo; norm_num

/-- Claim C7 as amended: the shortwave stage performs no range check:
for cloud cover outside [0, 8] it still returns the cubic formula value
without any failure, and above 8 oktas (with albedo below 1 and positive
irradiance) that value is negative, i.e. unphysical rather than an
error. -/
theorem shortwave_no_validation (c q a : ℝ) (hc : c < 0 ∨ 8 < c) :
    estimate_net_shortwave c q a = (1 - a) * q * (1 - (c / 8) ^ 3) ∧
    (8 < c → 0 < q → a < 1 → estimate_net_shortwave c q a < 0) := by
  constructor
  · unfold estimate_net_shortwave
    norm_num
  · intro h8 hq ha
    unfold estimate_net_shortwave
    have h1 : (1 : ℝ) < c / 8 := by linarith
    have h3 : (1 : ℝ) < (c / 8) ^ 3 := one_lt_pow₀ h1 (by norm_num)
    have hfac : (0 : ℝ) < (1 - a) * q := mul_pos (by linarith) hq
    norm_num
    nlinarith

/-- Witness for C7 at cloud cover 16 oktas. -/
theorem shortwave_no_validation_witness :
    estimate_net_shortwave 16 970 (6 / 100) =
      (1 - 6 / 100) * 970 * (1 - ((16 : ℝ) / 8) ^ 3) ∧
    ((8 : ℝ) < 16 → (0 : ℝ) < 970 → (6 : ℝ) / 100 < 1 →
      estimate_net_shortwave 16 970 (6 / 100) < 0) :=
  shortwave_no_validation 16 970 (6 / 100) (Or.inr (by norm_num))

/-- Claim C8: for fixed albedo in [0, 1] and nonnegative clear-sky
irradiance, the shortwave result is non-increasing in cloud cover over
[0, 8], equals `(1 - albedo) * clearSkyIrradiance` at 0 oktas and
vanishes at 8 oktas. -/
theorem shortwave_monotone (a q c1 c2 : ℝ) (ha0 : 0 ≤ a) (ha1 : a ≤ 1)
    (hq : 0 ≤ q) (h1 : 0 ≤ c1) (h12 : c1 ≤ c2) (h2 : c2 ≤ 8) :
    estimate_net_shortwave c2 q a ≤ estimate_net_shortwave c1 q a ∧
    estimate_net_shortwave 0 q a = (1 - a) * q ∧
    estimate_net_shortwave 8 q a = 0 := by
  refine ⟨?_, ?_, ?_⟩
  · unfold estimate_net_shortwave
    have hc : (c1 / 8) ^ 3 ≤ (c2 / 8) ^ 3 :=
      pow_le_pow_left₀ (by positivity) (by linarith) 3
    have hfac : (0 : ℝ) ≤ (1 - a) * q := mul_nonneg (by linarith) hq
    norm_num
    nlinarith
  · unfold estimate_net_shortwave
    norm_num
  · unfold estimate_net_shortwave
    norm_num

/-- Witness for C8 with albedo 0.06, irradiance 970, cloud covers 2 and
7 oktas. -/
theorem shortwave_monotone_witness :
    estimate_net_shortwave 7 970 (6 / 100) ≤ estimate_net_shortwave 2 970 (6 / 100) ∧
    estimate_net_shortwave 0 970 (6 / 100) = (1 - 6 / 100) * 970 ∧
    estimate_net_shortwave 8 970 (6 / 100) = 0 :=
  shortwave_monotone (6 / 100) 970 2 7 (by norm_num) (by norm_num) (by norm_num)
    (by norm_num) (by norm_num) (by norm_num)

/-- Claim C10: the pipeline's shortwave stage fixes the albedo to the
constant 0.06 and its interface takes only the cloud cover and the
clear-sky irradiance, so every call goes through albedo 0.06. -/
theorem shortwave_albedo_fixed :
    albedo = 6 / 100 ∧
    ∀ c q : ℝ, Qshortwave c q = estimate_net_shortwave c q (6 / 100) := by
  have h : albedo = 6 / 100 := by unfold albedo; norm_num
  exact ⟨h, fun c q => by unfold Qshortwave; rw [h]⟩

/-- Claim C1: the density-flux stage follows the source's step sequence:
evaporation and rain divided by 3600, `Qnet = -QnetMinusSW + netShortwave`,
`Ft = -Qnet / (rho0 * Cp)`, `Fs = (evap - precip) / (1 - salinity/1000)`,
and `Qp = rho0 * (alpha*Ft + beta*Fs)`, whenever the salinity is below
1000, `Cp` is nonzero and the reference density is positive. -/
theorem density_flux_steps (evaporation rain QnetMinusSW netShortwave S : ℝ)
    (coeffs : ThermoCoeffs) (rho0 : ℝ) (hS : S < 1000) (hCp : coeffs.Cp ≠ 0)
    (hrho : 0 < rho0) :
    compute_density_flux evaporation rain QnetMinusSW netShortwave S coeffs rho0 =
      (-QnetMinusSW + netShortwave,
       rho0 * (coeffs.alpha *
           (-(-QnetMinusSW + netShortwave) / (rho0 * coeffs.Cp)) +
         coeffs.beta *
           ((evaporation / 3600 - rain / 3600) / (1 - S / 1000)))) := rfl

/-- Witness for C1 at evaporation 3600 mm/hr, no rain, `QnetMinusSW`
-100, shortwave 200, salinity 35, coefficients (2, 3, 4000), reference
density 1025. -/
theorem density_flux_steps_witness :
    compute_density_flux 3600 0 (-100) 200 35 ⟨2, 3, 4000⟩ 1025 =
      (-(-100) + 200,
       1025 * (2 * (-(-(-100) + 200) / (1025 * 4000)) +
         3 * (((3600 : ℝ) / 3600 - 0 / 3600) / (1 - 35 / 1000)))) :=
  density_flux_steps 3600 0 (-100) 200 35 ⟨2, 3, 4000⟩ 1025 (by norm_num)
    (by norm_num) (by norm_num)

/-- Claim C9: dividing a rate by 3600 (mm/hour to kg/(s m^2), as applied
to evaporation and rain) then multiplying by 3600 recovers the original
rate exactly. -/
theorem conversion_roundtrip (rate : ℝ) :
    kgPerSecM2ToMmPerHour (mmPerHourToKgPerSecM2 rate) = rate := by
  unfold kgPerSecM2ToMmPerHour mmPerHourToKgPerSecM2
  field_simp

/-- Claim C2: with a nonnegative stress, a positive reference density
and a nonzero `kappa * Bf`, the Obukhov stage computes
`Bf = -g * Qp / rho0`, `ustar = sqrt(tau / rho0)` and
`L = -ustar^3 / (kappa * Bf)`, with the von Karman constant 0.4.  The
Obukhov length is stated through its numeric value [NFloat.toReal?]
because at `tau = 0` the float result is a signed zero (the numerator is
-0.0), numerically equal to the formula's 0. -/
theorem obukhov_formulas (Qp tau rho0 g : ℝ) (htau : 0 ≤ tau) (hrho : 0 < rho0)
    (hBf : kappa * (-g * Qp / rho0) ≠ 0) :
    (compute_obukhov (NFloat.fin Qp) tau rho0 g).1 =
      NFloat.fin (-g * Qp / rho0) ∧
    (compute_obukhov (NFloat.fin Qp) tau rho0 g).2.1 =
      NFloat.fin (Real.sqrt (tau / rho0)) ∧
    ((compute_obukhov (NFloat.fin Qp) tau rho0 g).2.2).toReal? =
      some (-Real.sqrt (tau / rho0) ^ 3 / (kappa * (-g * Qp / rho0))) ∧
    kappa = 0.4 := by
  have hB : -g * Qp / rho0 ≠ 0 := fun h => hBf (by rw [h, mul_zero])
  have hgQ : -g * Qp ≠ 0 := fun h => hB (by rw [h, zero_div])
  have hg : g ≠ 0 := fun h => hgQ (by rw [h]; ring)
  have hBfin : (compute_obukhov (NFloat.fin Qp) tau rho0 g).1 =
      NFloat.fin (-g * Qp / rho0) := by
    show NFloat.div (NFloat.mul (NFloat.neg (NFloat.fin g)) (NFloat.fin Qp))
        (NFloat.fin rho0) = _
    rw [NFloat.neg_fin_of_ne hg, NFloat.mul_fin_fin_of_ne hgQ,
      NFloat.div_fin_fin_of_pos hrho]
  have hUfin : (compute_obukhov (NFloat.fin Qp) tau rho0 g).2.1 =
      NFloat.fin (Real.sqrt (tau / rho0)) := by
    show NFloat.sqrt (NFloat.div (NFloat.fin tau) (NFloat.fin rho0)) = _
    rw [NFloat.div_fin_fin_of_pos hrho,
      NFloat.sqrt_fin_of_nonneg (div_nonneg htau hrho.le)]
  refine ⟨hBfin, hUfin, ?_, rfl⟩
  show (NFloat.div
      (NFloat.neg (NFloat.pow3 ((compute_obukhov (NFloat.fin Qp) tau rho0 g).2.1)))
      (NFloat.mul (NFloat.fin kappa)
        ((compute_obukhov (NFloat.fin Qp) tau rho0 g).1))).toReal? = _
  rw [hBfin, hUfin, NFloat.pow3_fin_nonneg (Real.sqrt_nonneg _),
    NFloat.mul_fin_fin_of_ne hBf]
  by_cases hs : Real.sqrt (tau / rho0) = 0
  · rw [hs, show ((0 : ℝ) ^ 3) = 0 from by norm_num, NFloat.neg_fin_zero]
    rcases hBf.lt_or_lt with hneg | hpos
    · rw [NFloat.div_negZero_fin_of_neg hneg]
      simp [NFloat.toReal?]
    · rw [NFloat.div_negZero_fin_of_pos hpos]
      simp [NFloat.toReal?]
  · have h3 : Real.sqrt (tau / rho0) ^ 3 ≠ 0 := pow_ne_zero 3 hs
    rw [NFloat.neg_fin_of_ne h3,
      NFloat.div_fin_fin_of_ne (neg_ne_zero.mpr h3) hBf]
    simp [NFloat.toReal?]

/-- Witness for C2 at `Qp = 1`, `tau = 0`, `rho0 = 1`, `g = 1`. -/
theorem obukhov_formulas_witness :
    (compute_obukhov (NFloat.fin 1) 0 1 1).1 = NFloat.fin (-1 * 1 / 1) ∧
    (compute_obukhov (NFloat.fin 1) 0 1 1).2.1 =
      NFloat.fin (Real.sqrt ((0 : ℝ) / 1)) ∧
    ((compute_obukhov (NFloat.fin 1) 0 1 1).2.2).toReal? =
      some (-Real.sqrt ((0 : ℝ) / 1) ^ 3 / (kappa * (-1 * 1 / 1))) ∧
    kappa = 0.4 :=
  obukhov_formulas 1 0 1 1 le_rfl one_pos (by unfold kappa; norm_num)

/-- Counterexample for C3: at zero density flux `Qp = +0.0` with
`tau = 0` (allowed by the claim's `tau >= 0`), the buoyancy flux is the
float -0.0 and the Obukhov length evaluates to NaN (-0.0 divided by
-0.0 is 0/0 in numpy), not to a signed infinity. -/
theorem obukhov_neutral_cx :
    (compute_obukhov (NFloat.fin 0) 0 1025 (981 / 100)).2.2 = NFloat.nan ∧
    NFloat.nan ≠ NFloat.posInf ∧ NFloat.nan ≠ NFloat.negInf := by
  refine ⟨?_, fun h => NFloat.noConfusion h, fun h => NFloat.noConfusion h⟩
  show NFloat.div
      (NFloat.neg (NFloat.pow3 (NFloat.sqrt
        (NFloat.div (NFloat.fin (0 : ℝ)) (NFloat.fin 1025)))))
      (NFloat.mul (NFloat.fin kappa)
        (NFloat.div (NFloat.mul (NFloat.neg (NFloat.fin (981 / 100 : ℝ)))
          (NFloat.fin 0)) (NFloat.fin 1025))) = NFloat.nan
  have e1 : NFloat.div (NFloat.fin (0 : ℝ)) (NFloat.fin 1025) = NFloat.fin 0 := by
    rw [NFloat.div_fin_fin_of_pos (by norm_num)]
    norm_num
  have e2 : NFloat.sqrt (NFloat.fin (0 : ℝ)) = NFloat.fin 0 := by
    rw [NFloat.sqrt_fin_of_nonneg le_rfl, Real.sqrt_zero]
  have e3 : NFloat.pow3 (NFloat.fin (0 : ℝ)) = NFloat.fin 0 := by
    rw [NFloat.pow3_fin_nonneg le_rfl]
    norm_num
  have e4 : NFloat.neg (NFloat.fin (981 / 100 : ℝ)) = NFloat.fin (-(981 / 100)) :=
    NFloat.neg_fin_of_ne (by norm_num)
  have e5 : NFloat.mul (NFloat.fin (-(981 / 100) : ℝ)) (NFloat.fin 0) =
      NFloat.negZero :=
    NFloat.mul_fin_zero_of_neg (by norm_num)
  have hk : (0 : ℝ) < kappa := by unfold kappa; norm_num
  rw [e1, e2, e3, NFloat.neg_fin_zero, e4, e5,
    NFloat.div_negZero_fin_of_pos (by norm_num : (0 : ℝ) < 1025),
    NFloat.mul_fin_negZero_of_pos hk, NFloat.div_negZero_negZero]

/-- Claim C3 as amended: with a positive stress and reference density,
whenever the computed buoyancy flux is exactly zero the Obukhov length
is a signed infinity and nothing is raised (numpy warns): -inf when `Bf`
is the positive zero +0.0, +inf when `Bf` is the negative zero -0.0
(the generic case, reached e.g. from `Qp = +0.0` since
`(-g)*(+0.0) = -0.0`); at `tau = 0` the division is 0/0 and yields NaN
instead. -/
theorem obukhov_neutral_signed_inf (Qp : NFloat) (tau rho0 g : ℝ)
    (htau : 0 < tau) (hrho : 0 < rho0) :
    ((compute_obukhov Qp tau rho0 g).1 = NFloat.fin 0 →
      (compute_obukhov Qp tau rho0 g).2.2 = NFloat.negInf) ∧
    ((compute_obukhov Qp tau rho0 g).1 = NFloat.negZero →
      (compute_obukhov Qp tau rho0 g).2.2 = NFloat.posInf) := by
  have hs : (0 : ℝ) < tau / rho0 := div_pos htau hrho
  have hsq : (0 : ℝ) < Real.sqrt (tau / rho0) := Real.sqrt_pos.mpr hs
  have hcube : (0 : ℝ) < Real.sqrt (tau / rho0) ^ 3 := pow_pos hsq 3
  have hnum : NFloat.neg (NFloat.pow3 (NFloat.sqrt
      (NFloat.div (NFloat.fin tau) (NFloat.fin rho0)))) =
      NFloat.fin (-(Real.sqrt (tau / rho0) ^ 3)) := by
    rw [NFloat.div_fin_fin_of_pos hrho, NFloat.sqrt_fin_of_nonneg hs.le,
      NFloat.pow3_fin_nonneg hsq.le, NFloat.neg_fin_of_ne hcube.ne']
  have hk : (0 : ℝ) < kappa := by unfold kappa; norm_num
  constructor
  · intro hB
    show NFloat.div
        (NFloat.neg (NFloat.pow3 (NFloat.sqrt
          (NFloat.div (NFloat.fin tau) (NFloat.fin rho0)))))
        (NFloat.mul (NFloat.fin kappa) ((compute_obukhov Qp tau rho0 g).1)) =
      NFloat.negInf
    rw [hB, hnum, NFloat.mul_fin_fin_nonneg hk.le le_rfl, mul_zero]
    exact NFloat.div_fin_zero_of_neg (by linarith)
  · intro hB
    show NFloat.div
        (NFloat.neg (NFloat.pow3 (NFloat.sqrt
          (NFloat.div (NFloat.fin tau) (NFloat.fin rho0)))))
        (NFloat.mul (NFloat.fin kappa) ((compute_obukhov Qp tau rho0 g).1)) =
      NFloat.posInf
    rw [hB, hnum, NFloat.mul_fin_negZero_of_pos hk]
    exact NFloat.div_fin_negZero_of_neg (by linarith)

/-- Witness for C3 at `tau = 1`, `rho0 = 1025`, `g = 9.81`: the density
flux `Qp = +0.0` gives `Bf = -0.0` and `L = +inf`; `Qp = -0.0` gives
`Bf = +0.0` and `L = -inf`. -/
theorem obukhov_neutral_signed_inf_witness :
    (compute_obukhov (NFloat.fin 0) 1 1025 (981 / 100)).2.2 = NFloat.posInf ∧
    (compute_obukhov NFloat.negZero 1 1025 (981 / 100)).2.2 = NFloat.negInf := by
  have hBf1 : (compute_obukhov (NFloat.fin 0) 1 1025 (981 / 100 : ℝ)).1 =
      NFloat.negZero := by
    show NFloat.div (NFloat.mul (NFloat.neg (NFloat.fin (981 / 100 : ℝ)))
        (NFloat.fin 0)) (NFloat.fin 1025) = NFloat.negZero
    rw [NFloat.neg_fin_of_ne (by norm_num),
      NFloat.mul_fin_zero_of_neg (by norm_num),
      NFloat.div_negZero_fin_of_pos (by norm_num)]
  have hBf2 : (compute_obukhov NFloat.negZero 1 1025 (981 / 100 : ℝ)).1 =
      NFloat.fin 0 := by
    show NFloat.div (NFloat.mul (NFloat.neg (NFloat.fin (981 / 100 : ℝ)))
        NFloat.negZero) (NFloat.fin 1025) = NFloat.fin 0
    rw [NFloat.neg_fin_of_ne (by norm_num),
      NFloat.mul_fin_negZero_of_neg (by norm_num),
      NFloat.div_fin_fin_of_pos (by norm_num)]
    norm_num
  exact
    ⟨(obukhov_neutral_signed_inf (NFloat.fin 0) 1 1025 (981 / 100) one_pos
        (by norm_num)).2 hBf1,
     (obukhov_neutral_signed_inf NFloat.negZero 1 1025 (981 / 100) one_pos
        (by norm_num)).1 hBf2⟩

/-- Counterexample for C6: at the negative stress `tau = -1` the source
raises no `InvalidInput`; the friction velocity silently evaluates to
NaN (numpy square root of a negative). -/
theorem obukhov_negative_tau_cx :
    (compute_obukhov (NFloat.fin 0) (-1) 1025 (981 / 100)).2.1 = NFloat.nan := by
  show NFloat.sqrt (NFloat.div (NFloat.fin (-1 : ℝ)) (NFloat.fin 1025)) =
    NFloat.nan
  rw [NFloat.div_fin_fin_of_pos (by norm_num)]
  exact NFloat.sqrt_fin_of_neg (by norm_num)

/-- Claim C6 as amended: the Obukhov stage performs no validation: for
every negative stress (with a positive reference density, whatever the
density flux) the friction velocity is NaN and the NaN propagates to the
Obukhov length; no error is raised. -/
theorem obukhov_negative_tau_nan (Qp : NFloat) (tau rho0 g : ℝ)
    (htau : tau < 0) (hrho : 0 < rho0) :
    (compute_obukhov Qp tau rho0 g).2.1 = NFloat.nan ∧
    (compute_obukhov Qp tau rho0 g).2.2 = NFloat.nan := by
  have hs : tau / rho0 < 0 := div_neg_of_neg_of_pos htau hrho
  have hU : NFloat.sqrt (NFloat.div (NFloat.fin tau) (NFloat.fin rho0)) =
      NFloat.nan := by
    rw [NFloat.div_fin_fin_of_pos hrho]
    exact NFloat.sqrt_fin_of_neg hs
  constructor
  · exact hU
  · show NFloat.div
        (NFloat.neg (NFloat.pow3 (NFloat.sqrt
          (NFloat.div (NFloat.fin tau) (NFloat.fin rho0)))))
        (NFloat.mul (NFloat.fin kappa) ((compute_obukhov Qp tau rho0 g).1)) =
      NFloat.nan
    rw [hU, NFloat.pow3_nan, NFloat.neg_nan, NFloat.div_nan_left]

/-- Witness for C6 at `tau = -2`, `rho0 = 1025`. -/
theorem obukhov_negative_tau_nan_witness :
    (compute_obukhov (NFloat.fin 0) (-2) 1025 (981 / 100)).2.1 = NFloat.nan ∧
    (compute_obukhov (NFloat.fin 0) (-2) 1025 (981 / 100)).2.2 = NFloat.nan :=
  obukhov_negative_tau_nan (NFloat.fin 0) (-2) 1025 (981 / 100) (by norm_num)
    (by norm_num)

/-- Claim C5: the printed summary reports the sensible heat flux, latent
heat flux and net longwave as the negations of the estimator's
`Qsensible`, `Qlatent` and `LWnet` ("positive into the ocean"), while
the net heat flux, buoyancy flux and Obukhov length are reported
unnegated from their stages, for every observation record and every pair
of external collaborators. -/
theorem pipeline_sign_convention (obs : ObservationRecord) (coare : CoareFn)
    (gsw : GswFns) :
    let Qsw := Qshortwave obs.cloudCover obs.QswIdeal
    let A := coare obs.windspeed obs.airTemperature obs.relativeHumidity
      obs.bulkSST obs.MSLP Qsw obs.Hs obs.mastHeight obs.mastHeight
      obs.mastHeight obs.latitude
    let coeffs : ThermoCoeffs :=
      ⟨gsw.alpha obs.surfaceSalinity obs.bulkSST obs.dBar,
       gsw.beta obs.surfaceSalinity obs.bulkSST obs.dBar,
       gsw.cp_t_exact obs.surfaceSalinity obs.bulkSST obs.dBar⟩
    let dens := compute_density_flux A.evaporation obs.rain A.QnetMinusSW Qsw
      obs.surfaceSalinity coeffs obs.rho0
    let buoy := compute_obukhov (NFloat.fin dens.2) A.tau obs.rho0 obs.g
    (run_pipeline obs coare gsw).sensibleHeatFlux = -A.Qsensible ∧
    (run_pipeline obs coare gsw).latentHeatFlux = -A.Qlatent ∧
    (run_pipeline obs coare gsw).netLongwave = -A.LWnet ∧
    (run_pipeline obs coare gsw).netHeatFlux = dens.1 ∧
    (run_pipeline obs coare gsw).buoyancyFlux = buoy.1 ∧
    (run_pipeline obs coare gsw).obukhovLength = buoy.2.2 :=
  ⟨rfl, rfl, rfl, rfl, rfl, rfl⟩

end AirSea

end
